import Mathlib

/-!
Verification of the session/terminal relay of the claude-code-remote daemon.

The daemon code (src/daemon/src/terminal-manager.js, protocol.js, auth.js,
sandbox.js and the WebSocket server in the daemon entry point) is shallowly
embedded below.  JavaScript strings carrying terminal data are modelled as
lists of UTF-16 code units (`Bytes`); the process-wide `sessions` Map is an
association list; `setTimeout` handles are modelled as pending-timer flags,
with a separate timed model (`runIdle`) for the idle-timer arithmetic; the
single-threaded event loop is modelled by explicit event traces.
-/

namespace CCRemote

/-- Terminal data: a JS string viewed as its list of UTF-16 code units. -/
abbrev Bytes := List Nat

/-- MAX_SCROLLBACK from terminal-manager.js: 50 * 1024. -/
def MAX_SCROLLBACK : Nat := 50 * 1024

/-- IDLE_TIMEOUT_MS from terminal-manager.js: 3000 ms. -/
def IDLE_TIMEOUT_MS : Nat := 3000

/-- JS `s.slice(-n)`: the last `n` elements (all of `l` when `l` is shorter). -/
def lastN (n : Nat) (l : Bytes) : Bytes := l.drop (l.length - n)

/-- Structured form of the JSON frames built by protocol.js (`makeTerminalOutput`,
`makeSessionCreated`, `makeSessionEnded`, `makeSessionIdle`, `makeError`).
`JSON.stringify` of distinct records is injective, so frames are compared at
this structural level.  The optional `cwd`/`name`/`createdAt` metadata of
`session.created` is not inspected by any claim and is omitted. -/
inductive Msg where
  | terminalOutput (sessionId : String) (data : Bytes)
  | sessionCreated (sessionId : String) (cols rows : Nat)
  | sessionEnded (sessionId : String) (reason : String)
  | sessionIdle (sessionId : String)
  | errorMsg (message : String)
deriving Repr, DecidableEq

/-- protocol.js `makeTerminalOutput`. -/
def makeTerminalOutput (sessionId : String) (data : Bytes) : Msg :=
  Msg.terminalOutput sessionId data

/-- protocol.js `makeSessionIdle`. -/
def makeSessionIdle (sessionId : String) : Msg := Msg.sessionIdle sessionId

/-- protocol.js `makeError`. -/
def makeError (message : String) : Msg := Msg.errorMsg message

/-- One entry of the `sessions` Map of terminal-manager.js.  Handler
registrations (`scrollbackHandler`, `exitHandler`, `dataHandler`) and timer
handles (`destroyTimer`, `idleTimer`) are modelled as flags recording whether
the handler/timer is currently registered/pending; `ws` holds the identifier
of the attached WebSocket, `none` for JS `null`.  The descriptive `name` and
`createdAt` fields are never inspected by a claim and are omitted. -/
structure Session where
  ws : Option Nat
  destroyTimer : Bool
  idleTimer : Bool
  scrollback : Bytes
  scrollbackHandler : Bool
  exitHandler : Bool
  dataHandler : Bool
  cwd : String
  deviceName : Option String
deriving Repr, DecidableEq

/-- The process-wide `sessions` Map, as an association list with unique keys. -/
abbrev Registry := List (String × Session)

/-- `sessions.get(id)`. -/
def lookup : Registry → String → Option Session
  | [], _ => none
  | p :: rest, id => if p.1 = id then some p.2 else lookup rest id

/-- `sessions.set(id, s)`: replace the binding of `id`, or append a new one. -/
def regSet : Registry → String → Session → Registry
  | [], id, s => [(id, s)]
  | p :: rest, id, s => if p.1 = id then (id, s) :: rest else p :: regSet rest id s

/-- `sessions.delete(id)`.  Map keys are unique, so deletion is modelled as
removing every binding of the key. -/
def regDelete (reg : Registry) (id : String) : Registry :=
  reg.filter (fun p => p.1 ≠ id)

theorem lookup_regSet_self (reg : Registry) (id : String) (s : Session) :
    lookup (regSet reg id s) id = some s := by
  induction reg with
  | nil => simp [regSet, lookup]
  | cons p rest ih =>
      by_cases h : p.1 = id
      · simp [regSet, h, lookup]
      · simp [regSet, h, lookup, ih]

theorem lookup_regSet_ne (reg : Registry) (id j : String) (s : Session)
    (h : j ≠ id) : lookup (regSet reg id s) j = lookup reg j := by
  have hij : id ≠ j := fun hh => h hh.symm
  induction reg with
  | nil => simp [regSet, lookup, hij]
  | cons p rest ih =>
      by_cases hp : p.1 = id
      · subst hp
        simp [regSet, lookup, hij]
      · simp [regSet, hp, lookup, ih]

theorem lookup_regDelete_self (reg : Registry) (id : String) :
    lookup (regDelete reg id) id = none := by
  induction reg with
  | nil => simp [regDelete, lookup]
  | cons p rest ih =>
      by_cases h : p.1 = id
      · simpa [regDelete, h] using ih
      · simpa [regDelete, h, lookup] using ih

/-- sandbox.js `validatePath(requestedPath, sandboxRoot)`.  `path.resolve` is
an external library call and is passed in as `resolve`; `path.sep` is the
posix separator
(the Windows-only UNC and case-folding branches are compiled out: the posix
build has `IS_WINDOWS = false`).  A missing or empty `sandboxRoot` is falsy in
JS, so both disable the check. -/
def validatePath (resolve : String → String) (requestedPath : String)
    (sandboxRoot : Option String) : Option String :=
  match sandboxRoot with
  | none => some (resolve requestedPath)
  | some rootRaw =>
      if rootRaw = "" then some (resolve requestedPath)
      else
        let resolved := resolve requestedPath
        let root := resolve rootRaw
        if ¬ ((root ++ "/").isPrefixOf resolved) ∧ resolved ≠ root then none
        else some resolved

/-- Observable side effects of `createSession`: `spawned` records that a PTY
process came into existence (node-pty `spawn` returning normally), and
`registryInsert` records `sessions.set`.  A `spawn` call that throws creates
no process and therefore records nothing. -/
inductive CreateAction where
  | spawned
  | registryInsert (id : String)
deriving Repr, DecidableEq

/-- terminal-manager.js `createSession(id, cwd, cols, rows, shell, sandboxRoot,
name, deviceName)`.  The outcome of the external `pty.spawn` call is passed in
as `spawnOk`; the source registers the permanent scrollback and exit handlers
on the session object right after `sessions.set`, which is reflected in the
inserted record.  A thrown error is the `Except.error` case and leaves the
registry untouched. -/
def createSession (reg : Registry) (id : String) (cwd : String)
    (shell : String) (sandboxRoot : Option String)
    (deviceName : Option String) (resolve : String → String) (spawnOk : Bool) :
    Except String Registry × List CreateAction :=
  match validatePath resolve cwd sandboxRoot with
  | none => (Except.error ("Path rejected by sandbox: " ++ cwd), [])
  | some resolvedCwd =>
      if spawnOk then
        let session : Session :=
          { ws := none
            destroyTimer := false
            idleTimer := false
            scrollback := []
            scrollbackHandler := true
            exitHandler := true
            dataHandler := false
            cwd := resolvedCwd
            deviceName := deviceName }
        (Except.ok (regSet reg id session),
          [CreateAction.spawned, CreateAction.registryInsert id])
      else (Except.error ("spawn failed: " ++ shell), [])

/-- terminal-manager.js `attachWebSocket(id, ws)`.  Clears a pending destroy
timer, detaches a previous forwarder if any (the inlined `detachWebSocket`
body acting on the same session record), stores the new socket, replays the
scrollback buffer when nonempty (JS truthiness of a string), and registers the
per-attachment data forwarder.  A missing id throws. -/
def attachWebSocket (reg : Registry) (id : String) (conn : Nat) :
    Except String (Registry × List (Nat × Msg)) :=
  match lookup reg id with
  | none => Except.error ("Session not found: " ++ id)
  | some session =>
      let session := { session with destroyTimer := false }
      let session :=
        if session.ws.isSome then { session with dataHandler := false, ws := none }
        else session
      let session := { session with ws := some conn }
      let replay :=
        if session.scrollback ≠ [] then
          [(conn, makeTerminalOutput id session.scrollback)]
        else []
      let session := { session with dataHandler := true }
      Except.ok (regSet reg id session, replay)

/-- terminal-manager.js `detachWebSocket(id)`: dispose only the per-attachment
forwarder (never the scrollback or exit handlers) and clear `ws`; a missing id
returns silently. -/
def detachWebSocket (reg : Registry) (id : String) : Registry :=
  match lookup reg id with
  | none => reg
  | some session => regSet reg id { session with dataHandler := false, ws := none }

/-- terminal-manager.js `setDeviceName(id, deviceName)`; `deviceName || null`
turns a falsy (absent or empty) name into null; a missing id is a no-op. -/
def setDeviceName (reg : Registry) (id : String) (deviceName : Option String) :
    Registry :=
  match lookup reg id with
  | none => reg
  | some session =>
      let dn := match deviceName with
        | some d => if d ≠ "" then some d else none
        | none => none
      regSet reg id { session with deviceName := dn }

/-- Observable PTY-side effects of write/resize. -/
inductive PtyAction where
  | write (id : String) (data : String)
  | resize (id : String) (cols rows : Int)
deriving Repr, DecidableEq

/-- terminal-manager.js `writeToSession(id, data)`: throws on a missing id,
otherwise feeds the data to the PTY and leaves the registry unchanged. -/
def writeToSession (reg : Registry) (id : String) (data : String) :
    Except String (List PtyAction) :=
  match lookup reg id with
  | none => Except.error ("Session not found: " ++ id)
  | some _ => Except.ok [PtyAction.write id data]

/-- terminal-manager.js `resizeSession(id, cols, rows)`: throws on a missing
id, otherwise resizes the PTY and leaves the registry unchanged. -/
def resizeSession (reg : Registry) (id : String) (cols rows : Int) :
    Except String (List PtyAction) :=
  match lookup reg id with
  | none => Except.error ("Session not found: " ++ id)
  | some _ => Except.ok [PtyAction.resize id cols rows]

/-- Observable side effects of `destroySession`. -/
inductive DestroyEffect where
  | clearedDestroyTimer
  | clearedIdleTimer
  | disposedDataHandler
  | disposedScrollbackHandler
  | disposedExitHandler
  | sentKill
deriving Repr, DecidableEq

/-- terminal-manager.js `destroySession(id)`: a missing id returns silently;
otherwise every pending timer is cleared, every registered handler disposed,
`pty.kill()` is attempted inside try/catch (`killRaises` is the outcome of
that external call; a raise is swallowed), and the entry is deleted. -/
def destroySession (reg : Registry) (id : String) (killRaises : Bool) :
    Registry × List DestroyEffect :=
  match lookup reg id with
  | none => (reg, [])
  | some s =>
      let fx := (if s.destroyTimer then [DestroyEffect.clearedDestroyTimer] else [])
        ++ (if s.idleTimer then [DestroyEffect.clearedIdleTimer] else [])
        ++ (if s.dataHandler then [DestroyEffect.disposedDataHandler] else [])
        ++ (if s.scrollbackHandler then [DestroyEffect.disposedScrollbackHandler] else [])
        ++ (if s.exitHandler then [DestroyEffect.disposedExitHandler] else [])
      let fx := match (if killRaises then (Except.error () : Except Unit Unit) else Except.ok ()) with
        | Except.ok _ => fx ++ [DestroyEffect.sentKill]
        | Except.error _ => fx ++ [DestroyEffect.sentKill]
      (regDelete reg id, fx)

/-- terminal-manager.js `scheduleDestroy(id, delayMs)`: arms the destroy timer
on an existing session; a missing id is a no-op.  The pending `setTimeout`
handle is the `destroyTimer` flag. -/
def scheduleDestroy (reg : Registry) (id : String) (delayMs : Nat) : Registry :=
  match lookup reg id with
  | none => reg
  | some session =>
      let _ := delayMs
      regSet reg id { session with destroyTimer := true }

/-- Global state of the event-driven core: the registry plus the set of
currently open WebSocket connections (`readyState === 1`). -/
structure MState where
  reg : Registry
  openConns : List Nat
deriving Repr, DecidableEq

/-- readyState check `ws.readyState === 1` for a connection id. -/
def wsIsOpen (st : MState) (c : Nat) : Bool := st.openConns.contains c

/-- Body of the permanent `scrollbackHandler` of terminal-manager.js, acting
on the session record: append the chunk, FIFO-trim to `MAX_SCROLLBACK` when
exceeded, and re-arm the idle timer. -/
def sbStep (s : Session) (data : Bytes) : Session :=
  { s with
    scrollback :=
      if (s.scrollback ++ data).length > MAX_SCROLLBACK then
        lastN MAX_SCROLLBACK (s.scrollback ++ data)
      else s.scrollback ++ data
    idleTimer := true }

/-- Body of the per-attachment `dataHandler` of terminal-manager.js: forward
the chunk to the attached socket when one is attached and open. -/
def fwdMsgs (st : MState) (id : String) (s1 : Session) (data : Bytes) :
    List (Nat × Msg) :=
  match s1.ws with
  | some c =>
      if s1.dataHandler ∧ wsIsOpen st c then [(c, makeTerminalOutput id data)]
      else []
  | none => []

/-- Arrival of one PTY output chunk: the permanent scrollback handler runs
first, then the per-attachment forwarder, when registered, sends the chunk to
the attached socket if it is open.  A destroyed session has no handlers (the
`none` case). -/
def ptyData (st : MState) (id : String) (data : Bytes) : MState × List (Nat × Msg) :=
  match lookup st.reg id with
  | none => (st, [])
  | some s =>
      let s1 := sbStep s data
      ({ st with reg := regSet st.reg id s1 }, fwdMsgs st id s1 data)

theorem sbStep_ws (s : Session) (d : Bytes) : (sbStep s d).ws = s.ws := rfl

theorem sbStep_dataHandler (s : Session) (d : Bytes) :
    (sbStep s d).dataHandler = s.dataHandler := rfl

theorem sbStep_destroyTimer (s : Session) (d : Bytes) :
    (sbStep s d).destroyTimer = s.destroyTimer := rfl

/-- Events of the terminal-manager level: PTY output arrival, an attach and a
detach of a WebSocket to a session. -/
inductive TMEvent where
  | ptyOut (id : String) (data : Bytes)
  | attach (id : String) (conn : Nat)
  | detach (id : String)
deriving Repr, DecidableEq

/-- Single event dispatch.  An attach of an unknown id throws in the source;
the gateway catches it, so at this level it has no effect. -/
def tmStep (st : MState) : TMEvent → MState × List (Nat × Msg)
  | TMEvent.ptyOut id d => ptyData st id d
  | TMEvent.attach id c =>
      match attachWebSocket st.reg id c with
      | Except.ok (reg, msgs) => ({ st with reg := reg }, msgs)
      | Except.error _ => (st, [])
  | TMEvent.detach id => ({ st with reg := detachWebSocket st.reg id }, [])

/-- Run a trace of events, collecting all messages sent, in order. -/
def tmRun (st : MState) : List TMEvent → MState × List (Nat × Msg)
  | [] => (st, [])
  | e :: es =>
      let r1 := tmStep st e
      let r2 := tmRun r1.1 es
      (r2.1, r1.2 ++ r2.2)

/-- Messages delivered to one particular connection, in order. -/
def msgsTo (c : Nat) (msgs : List (Nat × Msg)) : List Msg :=
  (msgs.filter (fun p => p.1 = c)).map Prod.snd

theorem tmRun_append (st : MState) (l1 l2 : List TMEvent) :
    tmRun st (l1 ++ l2)
      = ((tmRun (tmRun st l1).1 l2).1,
          (tmRun st l1).2 ++ (tmRun (tmRun st l1).1 l2).2) := by
  induction l1 generalizing st with
  | nil => simp [tmRun]
  | cons e es ih => simp [tmRun, ih, List.append_assoc]

theorem tmRun_cons (st : MState) (e : TMEvent) (es : List TMEvent) :
    tmRun st (e :: es)
      = ((tmRun (tmStep st e).1 es).1,
          (tmStep st e).2 ++ (tmRun (tmStep st e).1 es).2) := rfl

theorem length_lastN (n : Nat) (l : Bytes) : (lastN n l).length = min n l.length := by
  simp [lastN, List.length_drop]
  omega

theorem lastN_of_le (n : Nat) (l : Bytes) (h : l.length ≤ n) : lastN n l = l := by
  simp [lastN, Nat.sub_eq_zero_of_le h]

theorem trim_eq_lastN (l : Bytes) :
    (if l.length > MAX_SCROLLBACK then lastN MAX_SCROLLBACK l else l)
      = lastN MAX_SCROLLBACK l := by
  by_cases h : l.length > MAX_SCROLLBACK
  · simp [h]
  · simp [h, lastN_of_le MAX_SCROLLBACK l (by omega)]

theorem lastN_append_lastN (n : Nat) (a d : Bytes) :
    lastN n (lastN n a ++ d) = lastN n (a ++ d) := by
  unfold lastN
  rw [← List.drop_append_of_le_length (by omega)]
  rw [List.drop_drop]
  congr 1
  simp [List.length_drop, List.length_append]
  omega

theorem sbStep_scrollback (s : Session) (d : Bytes) :
    (sbStep s d).scrollback = lastN MAX_SCROLLBACK (s.scrollback ++ d) :=
  trim_eq_lastN (s.scrollback ++ d)

theorem sbStep_scrollback_le (s : Session) (d : Bytes) :
    (sbStep s d).scrollback.length ≤ MAX_SCROLLBACK := by
  rw [sbStep_scrollback]
  have := length_lastN MAX_SCROLLBACK (s.scrollback ++ d)
  omega

/-- State tracking for a run of PTY output events against one session: the
session keeps its attachment fields, and its scrollback becomes the last
`MAX_SCROLLBACK` bytes of everything it has ever held. -/
theorem run_out_state (chunks : List Bytes) (st : MState) (id : String)
    (s : Session) (hlk : lookup st.reg id = some s)
    (hsb : s.scrollback.length ≤ MAX_SCROLLBACK) :
    ∃ s2, lookup (tmRun st (chunks.map (TMEvent.ptyOut id))).1.reg id = some s2
      ∧ s2.scrollback = lastN MAX_SCROLLBACK (s.scrollback ++ chunks.flatten)
      ∧ s2.ws = s.ws ∧ s2.dataHandler = s.dataHandler
      ∧ s2.destroyTimer = s.destroyTimer
      ∧ (tmRun st (chunks.map (TMEvent.ptyOut id))).1.openConns = st.openConns := by
  induction chunks generalizing st s with
  | nil =>
      refine ⟨s, ?_⟩
      simpa [tmRun, lastN_of_le MAX_SCROLLBACK s.scrollback hsb] using hlk
  | cons d rest ih =>
      simp only [List.map_cons, tmRun, tmStep, ptyData, hlk]
      have hlk1 : lookup (regSet st.reg id (sbStep s d)) id = some (sbStep s d) :=
        lookup_regSet_self st.reg id (sbStep s d)
      obtain ⟨s2, h2lk, h2sb, h2ws, h2dh, h2dt, h2oc⟩ :=
        ih { st with reg := regSet st.reg id (sbStep s d) } (sbStep s d) hlk1
          (sbStep_scrollback_le s d)
      refine ⟨s2, h2lk, ?_, ?_, ?_, ?_, ?_⟩
      · rw [h2sb, sbStep_scrollback, lastN_append_lastN]
        simp [List.append_assoc]
      · rw [h2ws, sbStep_ws]
      · rw [h2dh, sbStep_dataHandler]
      · rw [h2dt, sbStep_destroyTimer]
      · simpa using h2oc

/-- Message tracking for a run of PTY output events while a socket is attached
and open: each chunk is forwarded, unchanged and in order, to that socket. -/
theorem run_out_msgs_attached (chunks : List Bytes) (st : MState) (id : String)
    (c : Nat) (s : Session) (hlk : lookup st.reg id = some s)
    (hws : s.ws = some c) (hdh : s.dataHandler = true)
    (hopen : st.openConns.contains c = true) :
    (tmRun st (chunks.map (TMEvent.ptyOut id))).2
      = chunks.map (fun d => (c, makeTerminalOutput id d)) := by
  induction chunks generalizing st s with
  | nil => simp [tmRun]
  | cons d rest ih =>
      simp only [List.map_cons, tmRun, tmStep, ptyData, hlk]
      have hlk1 : lookup (regSet st.reg id (sbStep s d)) id = some (sbStep s d) :=
        lookup_regSet_self st.reg id (sbStep s d)
      have h1ws : (sbStep s d).ws = some c := by rw [sbStep_ws, hws]
      have h1dh : (sbStep s d).dataHandler = true := by rw [sbStep_dataHandler, hdh]
      have hrest := ih { st with reg := regSet st.reg id (sbStep s d) } (sbStep s d)
        hlk1 h1ws h1dh (by simpa using hopen)
      rw [hrest]
      have hmem : c ∈ st.openConns := by simpa using hopen
      simp [fwdMsgs, h1ws, h1dh, wsIsOpen, hmem]

/-- Message tracking for a run of PTY output events while no socket is
attached: nothing is sent. -/
theorem run_out_msgs_silent (chunks : List Bytes) (st : MState) (id : String)
    (s : Session) (hlk : lookup st.reg id = some s) (hws : s.ws = none) :
    (tmRun st (chunks.map (TMEvent.ptyOut id))).2 = [] := by
  induction chunks generalizing st s with
  | nil => simp [tmRun]
  | cons d rest ih =>
      simp only [List.map_cons, tmRun, tmStep, ptyData, hlk]
      have hlk1 : lookup (regSet st.reg id (sbStep s d)) id = some (sbStep s d) :=
        lookup_regSet_self st.reg id (sbStep s d)
      have h1ws : (sbStep s d).ws = none := by rw [sbStep_ws, hws]
      have hrest := ih { st with reg := regSet st.reg id (sbStep s d) } (sbStep s d)
        hlk1 h1ws
      rw [hrest]
      simp [fwdMsgs, h1ws]

theorem msgsTo_append (c : Nat) (a b : List (Nat × Msg)) :
    msgsTo c (a ++ b) = msgsTo c a ++ msgsTo c b := by
  simp [msgsTo, List.filter_append]

theorem msgsTo_map_ne (c0 c : Nat) (h : c0 ≠ c) (l : List Bytes)
    (f : Bytes → Msg) : msgsTo c (l.map (fun d => (c0, f d))) = [] := by
  induction l with
  | nil => simp [msgsTo]
  | cons d rest ih => simp [msgsTo, h, ih]

theorem msgsTo_map_self (c : Nat) (l : List Bytes) (f : Bytes → Msg) :
    msgsTo c (l.map (fun d => (c, f d))) = l.map f := by
  induction l with
  | nil => simp [msgsTo]
  | cons d rest ih => simpa [msgsTo] using ih

/-- Effect of a detach step on a session known to be present. -/
theorem detachWebSocket_present (reg : Registry) (id : String) (s : Session)
    (hlk : lookup reg id = some s) :
    detachWebSocket reg id = regSet reg id { s with dataHandler := false, ws := none } := by
  simp [detachWebSocket, hlk]

/-- Effect of an attach step on a present session with no previous socket and
nonempty scrollback: the scrollback is replayed, then the forwarder armed. -/
theorem attachWebSocket_detached (reg : Registry) (id : String) (c : Nat)
    (s : Session) (hlk : lookup reg id = some s) (hws : s.ws = none)
    (hsb : s.scrollback ≠ []) :
    attachWebSocket reg id c
      = Except.ok
          (regSet reg id { s with destroyTimer := false, ws := some c, dataHandler := true },
            [(c, makeTerminalOutput id s.scrollback)]) := by
  simp [attachWebSocket, hlk, hws, hsb]

/-- C1: for every Session with a connection attached (and open) throughout,
every sequence of PTY output chunks is delivered to that connection as
`terminal.output` messages in the same order and with byte-for-byte identical
content; no chunk is reordered, merged out of order, or altered. -/
theorem c1_output_forwarded_in_order (st : MState) (id : String) (c : Nat)
    (s : Session) (chunks : List Bytes) (hlk : lookup st.reg id = some s)
    (hws : s.ws = some c) (hdh : s.dataHandler = true)
    (hopen : st.openConns.contains c = true) :
    (tmRun st (chunks.map (TMEvent.ptyOut id))).2
      = chunks.map (fun d => (c, makeTerminalOutput id d)) :=
  run_out_msgs_attached chunks st id c s hlk hws hdh hopen

/-- Session freshly created and attached to connection 7, used as a concrete
instance for the C1 witness. -/
def c1Sess : Session :=
  { ws := some 7
    destroyTimer := false
    idleTimer := false
    scrollback := []
    scrollbackHandler := true
    exitHandler := true
    dataHandler := true
    cwd := "/w"
    deviceName := none }

theorem c1_witness :
    (tmRun ⟨[("s", c1Sess)], [7]⟩
        ([[104], [105, 33]].map (TMEvent.ptyOut ("s")))).2
      = [[104], [105, 33]].map (fun d => (7, makeTerminalOutput ("s") d)) :=
  c1_output_forwarded_in_order ⟨[("s", c1Sess)], [7]⟩ "s" 7 c1Sess
    [[104], [105, 33]] (by decide) (by decide) (by decide) (by decide)

/-- Detach-then-reattach trace of C2: output `cs1` while attached, the
attached socket closes, output `cs2` while detached, a new socket `cNew`
attaches, then output `ds`. -/
def c2Trace (id : String) (cNew : Nat) (cs1 cs2 ds : List Bytes) : List TMEvent :=
  cs1.map (TMEvent.ptyOut id) ++
    (TMEvent.detach id ::
      (cs2.map (TMEvent.ptyOut id) ++
        (TMEvent.attach id cNew :: ds.map (TMEvent.ptyOut id))))

/-- The delivery pattern asserted by C2 for the reattaching connection: one
replay frame holding the last `MAX_SCROLLBACK` bytes of all output so far,
followed by the live chunks, nothing else. -/
def c2ReplayThenLive (st : MState) (id : String) (cNew : Nat)
    (cs1 cs2 ds : List Bytes) : Prop :=
  msgsTo cNew (tmRun st (c2Trace id cNew cs1 cs2 ds)).2
    = makeTerminalOutput id (lastN MAX_SCROLLBACK ((cs1 ++ cs2).flatten))
      :: ds.map (makeTerminalOutput id)

/-- C2 (amended): when at least one byte of PTY output has been produced
since creation, a connection reattaching after a detach receives, first, one
`terminal.output` frame holding exactly the last
`min(totalBytes, MAX_SCROLLBACK)` bytes of the cumulative output, and only
afterwards the live chunks — no byte duplicated, no gap; when no output has
been produced, the code sends no replay frame at all (see the
counterexample). -/
theorem c2_reattach_replay (st : MState) (id : String) (c0 cNew : Nat)
    (s0 : Session) (cs1 cs2 ds : List Bytes)
    (hlk : lookup st.reg id = some s0) (hws : s0.ws = some c0)
    (hdh : s0.dataHandler = true) (hsb0 : s0.scrollback = [])
    (hopen0 : st.openConns.contains c0 = true)
    (hopenN : st.openConns.contains cNew = true)
    (hne : cNew ≠ c0)
    (hflat : (cs1 ++ cs2).flatten ≠ ([] : Bytes)) :
    c2ReplayThenLive st id cNew cs1 cs2 ds
      ∧ (lastN MAX_SCROLLBACK ((cs1 ++ cs2).flatten)).length
          = min ((cs1 ++ cs2).flatten).length MAX_SCROLLBACK := by
  have hM : 0 < MAX_SCROLLBACK := by decide
  obtain ⟨s2, h2lk, h2sb, h2ws, h2dh, h2dt, h2oc⟩ :=
    run_out_state cs1 st id s0 hlk (by simp [hsb0])
  have hm1 := run_out_msgs_attached cs1 st id c0 s0 hlk hws hdh hopen0
  set st1 := (tmRun st (cs1.map (TMEvent.ptyOut id))).1 with hst1def
  set s3 : Session := { s2 with dataHandler := false, ws := none } with hs3def
  have hdet : tmStep st1 (TMEvent.detach id)
      = ({ st1 with reg := regSet st1.reg id s3 }, []) := by
    simp [tmStep, detachWebSocket_present st1.reg id s2 h2lk, hs3def]
  set st2 : MState := { st1 with reg := regSet st1.reg id s3 } with hst2def
  have h3lk : lookup st2.reg id = some s3 := lookup_regSet_self st1.reg id s3
  have h3sb : s3.scrollback = lastN MAX_SCROLLBACK cs1.flatten := by
    show s2.scrollback = _
    rw [h2sb, hsb0]
    simp
  have h3sble : s3.scrollback.length ≤ MAX_SCROLLBACK := by
    rw [h3sb]
    have := length_lastN MAX_SCROLLBACK cs1.flatten
    omega
  have h3ws : s3.ws = none := rfl
  obtain ⟨s4, h4lk, h4sb, h4ws, h4dh, h4dt, h4oc⟩ :=
    run_out_state cs2 st2 id s3 h3lk h3sble
  have hm3 := run_out_msgs_silent cs2 st2 id s3 h3lk h3ws
  set st3 := (tmRun st2 (cs2.map (TMEvent.ptyOut id))).1 with hst3def
  have h4sb2 : s4.scrollback = lastN MAX_SCROLLBACK ((cs1 ++ cs2).flatten) := by
    rw [h4sb, h3sb, lastN_append_lastN, List.flatten_append]
  have h4ws2 : s4.ws = none := by rw [h4ws, h3ws]
  have hflen : 0 < ((cs1 ++ cs2).flatten).length := List.length_pos.mpr hflat
  have h4sbne : s4.scrollback ≠ [] := by
    rw [h4sb2]
    intro hnil
    have hl := length_lastN MAX_SCROLLBACK ((cs1 ++ cs2).flatten)
    rw [hnil] at hl
    simp only [List.length_nil] at hl
    omega
  set s5 : Session :=
    { s4 with destroyTimer := false, ws := some cNew, dataHandler := true } with hs5def
  have hatt : tmStep st3 (TMEvent.attach id cNew)
      = ({ st3 with reg := regSet st3.reg id s5 },
          [(cNew, makeTerminalOutput id s4.scrollback)]) := by
    simp [tmStep, attachWebSocket_detached st3.reg id cNew s4 h4lk h4ws2 h4sbne, hs5def]
  set st4 : MState := { st3 with reg := regSet st3.reg id s5 } with hst4def
  have h5lk : lookup st4.reg id = some s5 := lookup_regSet_self st3.reg id s5
  have h5ws : s5.ws = some cNew := rfl
  have h5dh : s5.dataHandler = true := rfl
  have hoc2 : st2.openConns = st.openConns := h2oc
  have hoc3 : st3.openConns = st.openConns := by rw [h4oc]; exact hoc2
  have hoc4 : st4.openConns = st.openConns := hoc3
  have hm5 := run_out_msgs_attached ds st4 id cNew s5 h5lk h5ws h5dh
    (by rw [show st4.openConns = st.openConns from hoc4]; exact hopenN)
  constructor
  · show msgsTo cNew (tmRun st (c2Trace id cNew cs1 cs2 ds)).2 = _
    simp only [c2Trace]
    rw [tmRun_append]
    rw [hm1, ← hst1def]
    rw [tmRun_cons, hdet]
    dsimp only
    rw [tmRun_append]
    rw [hm3, ← hst3def]
    rw [tmRun_cons, hatt]
    dsimp only
    rw [hm5]
    simp only [msgsTo_append, List.nil_append]
    rw [msgsTo_map_ne c0 cNew hne.symm, msgsTo_map_self]
    simp [msgsTo, h4sb2]
  · have := length_lastN MAX_SCROLLBACK ((cs1 ++ cs2).flatten)
    omega

/-- Session freshly created and attached to connection 0, used for the C2
concrete instances. -/
def c2Sess : Session :=
  { ws := some 0
    destroyTimer := false
    idleTimer := false
    scrollback := []
    scrollbackHandler := true
    exitHandler := true
    dataHandler := true
    cwd := "/w"
    deviceName := none }

/-- C2 counterexample: with no PTY output produced since creation
(`totalBytes = 0`), the claim as stated predicts a first `terminal.output`
frame carrying the last `min(0, MAX_SCROLLBACK) = 0` bytes before any live
output; the code skips the replay entirely (JS truthiness of the empty
scrollback string), so the reattaching connection's first message is already
the live chunk. -/
theorem c2_counterexample :
    ¬ c2ReplayThenLive ⟨[("s", c2Sess)], [0, 1]⟩ "s" 1 [] [] [[104, 105]] := by
  unfold c2ReplayThenLive
  decide

theorem c2_witness :
    c2ReplayThenLive ⟨[("s", c2Sess)], [0, 1]⟩ "s" 1 [[97]] [[98]] [[99]]
      ∧ (lastN MAX_SCROLLBACK ((([[97]] : List Bytes) ++ [[98]]).flatten)).length
          = min ((([[97]] : List Bytes) ++ [[98]]).flatten).length MAX_SCROLLBACK := by
  exact c2_reattach_replay ⟨[("s", c2Sess)], [0, 1]⟩ "s" 0 1 c2Sess [[97]] [[98]] [[99]]
    (by decide) (by decide) (by decide) (by decide) (by decide) (by decide)
    (by decide) (by decide)

/-- Detached session with one byte of scrollback, used as a bystander entry
in several concrete instances. -/
def sampleSess : Session :=
  { ws := none
    destroyTimer := false
    idleTimer := false
    scrollback := [104]
    scrollbackHandler := true
    exitHandler := true
    dataHandler := false
    cwd := "/w"
    deviceName := none }

/-- C8: destroying a session twice has the same observable effect as once —
the second call finds no entry, performs no effect and raises no error (it is
a total function either way), and the outcome never depends on whether
`pty.kill()` raised on an already-exited process. -/
theorem c8_destroy_idempotent (reg : Registry) (id : String) (k1 k2 : Bool) :
    destroySession (destroySession reg id k1).1 id k2
        = ((destroySession reg id k1).1, [])
      ∧ destroySession reg id true = destroySession reg id false := by
  constructor
  · cases hlk : lookup reg id with
    | none => simp [destroySession, hlk]
    | some s => simp [destroySession, hlk, lookup_regDelete_self]
  · cases hlk : lookup reg id with
    | none => simp [destroySession, hlk]
    | some s => simp [destroySession, hlk]

/-- C10: `detachWebSocket`, `scheduleDestroy` and `setDeviceName` against an
id absent from the Registry return silently (they are total) and leave the
Registry — and hence every existing Session, every timer and every handler —
completely unchanged. -/
theorem c10_missing_id_noops (reg : Registry) (id : String)
    (dn : Option String) (delayMs : Nat) (h : lookup reg id = none) :
    detachWebSocket reg id = reg
      ∧ scheduleDestroy reg id delayMs = reg
      ∧ setDeviceName reg id dn = reg := by
  refine ⟨?_, ?_, ?_⟩ <;> simp [detachWebSocket, scheduleDestroy, setDeviceName, h]

theorem c10_witness :
    detachWebSocket [("a", sampleSess)] "missing" = [("a", sampleSess)]
      ∧ scheduleDestroy [("a", sampleSess)] "missing" 1800000 = [("a", sampleSess)]
      ∧ setDeviceName [("a", sampleSess)] "missing" (some ("phone")) = [("a", sampleSess)] :=
  c10_missing_id_noops [("a", sampleSess)] "missing" (some ("phone")) 1800000 (by decide)

/-- C5: when the sandbox check rejects the cwd, or the shell fails to spawn,
`createSession` raises the error, no PTY process comes into existence, and no
Registry entry is inserted (the action trace is empty, and the error return
leaves the caller's Registry exactly as it was). -/
theorem c5_createSession_atomic (reg : Registry) (id cwd shell : String)
    (sandboxRoot : Option String) (dn : Option String)
    (resolve : String → String) (spawnOk : Bool)
    (hfail : validatePath resolve cwd sandboxRoot = none ∨ spawnOk = false) :
    (∃ e, (createSession reg id cwd shell sandboxRoot dn resolve spawnOk).1
        = Except.error e)
      ∧ (createSession reg id cwd shell sandboxRoot dn resolve spawnOk).2 = [] := by
  rcases hfail with h | h
  · simp [createSession, h]
  · cases hv : validatePath resolve cwd sandboxRoot with
    | none => simp [createSession, hv]
    | some r => simp [createSession, hv, h]

theorem c5_witness :
    (∃ e, (createSession [("a", sampleSess)] "n" "/etc" "cmd.exe" (some ("/home"))
        none (fun s => s) true).1 = Except.error e)
      ∧ (createSession [("a", sampleSess)] "n" "/etc" "cmd.exe" (some ("/home"))
          none (fun s => s) true).2 = [] :=
  c5_createSession_atomic [("a", sampleSess)] "n" "/etc" "cmd.exe" (some ("/home"))
    none (fun s => s) true (Or.inl (by decide))

/-- Static configuration seen by the daemon entry point: `shell`,
`sandboxRoot` come from config.js, `defaultCwd` and the geometry from the
connection parameters; `resolve` stands for the external `path.resolve` and
`spawnOk` for the outcome of the external node-pty spawn. -/
structure GConfig where
  resolve : String → String
  sandboxRoot : Option String
  spawnOk : Bool
  shell : String
  defaultCwd : String
  cols : Nat
  rows : Nat

/-- Gateway-level state: the registry, the set of open connections, and the
session id each connection's message/close handlers captured at connection
time (`ws._sessionId` and the `sessionId` closure variable). -/
structure GState where
  reg : Registry
  openConns : List Nat
  boundId : List (Nat × String)
deriving Repr, DecidableEq

/-- Lookup of the captured session id of a connection. -/
def lookupConn : List (Nat × String) → Nat → Option String
  | [], _ => none
  | p :: rest, c => if p.1 = c then some p.2 else lookupConn rest c

/-- Create-and-attach tail of the `wss.on('connection')` handler (the branch
taken when no `sessionId` was presented or it did not resolve): create the
session under the fresh uuid, attach, acknowledge with `session.created`; a
thrown error is caught, reported over the socket, and the socket closed
before any handler is registered. -/
def gCreate (cfg : GConfig) (st : GState) (conn : Nat) (freshId : String)
    (deviceName : Option String) (openConns : List Nat) :
    GState × List (Nat × Msg) :=
  match createSession st.reg freshId cfg.defaultCwd cfg.shell cfg.sandboxRoot
      deviceName cfg.resolve cfg.spawnOk with
  | (Except.ok reg1, _acts) =>
      match attachWebSocket reg1 freshId conn with
      | Except.ok (reg2, replay) =>
          (⟨reg2, openConns, (conn, freshId) :: st.boundId⟩,
            replay ++ [(conn, Msg.sessionCreated freshId cfg.cols cfg.rows)])
      | Except.error e =>
          (⟨reg1, openConns.filter (fun x => x ≠ conn), st.boundId⟩,
            [(conn, makeError e)])
  | (Except.error e, _acts) =>
      (⟨st.reg, openConns.filter (fun x => x ≠ conn), st.boundId⟩,
        [(conn, makeError e)])

/-- The `wss.on('connection')` handler: reattach when the presented
`sessionId` resolves in the Registry (updating the device label when one was
sent), otherwise fall back to creating a new session under a fresh id. -/
def gOpen (cfg : GConfig) (st : GState) (conn : Nat) (requestedId : Option String)
    (freshId : String) (deviceName : Option String) : GState × List (Nat × Msg) :=
  let openConns := conn :: st.openConns
  match requestedId with
  | some rid =>
      if (lookup st.reg rid).isSome then
        let reg :=
          match deviceName with
          | some dn => if dn ≠ "" then setDeviceName st.reg rid (some dn) else st.reg
          | none => st.reg
        match attachWebSocket reg rid conn with
        | Except.ok (reg2, replay) =>
            (⟨reg2, openConns, (conn, rid) :: st.boundId⟩,
              replay ++ [(conn, Msg.sessionCreated rid cfg.cols cfg.rows)])
        | Except.error e =>
            (⟨reg, openConns.filter (fun x => x ≠ conn), st.boundId⟩,
              [(conn, makeError e)])
      else gCreate cfg st conn freshId deviceName openConns
  | none => gCreate cfg st conn freshId deviceName openConns

/-- The `ws.on('close')` handler together with the closing of the socket:
remove the connection from the open set, then run
`detachWebSocket(sessionId); scheduleDestroy(sessionId, keepAliveMs)` with
the session id captured at connection time.  A socket whose handshake failed
registered no handler. -/
def gClose (st : GState) (conn : Nat) (keepAliveMs : Nat) : GState :=
  let openConns := st.openConns.filter (fun x => x ≠ conn)
  match lookupConn st.boundId conn with
  | some sid =>
      ⟨scheduleDestroy (detachWebSocket st.reg sid) sid keepAliveMs,
        openConns, st.boundId⟩
  | none => ⟨st.reg, openConns, st.boundId⟩

/-- Expiry of a pending `scheduleDestroy` timeout: runs `destroySession`. -/
def gDestroyFire (st : GState) (id : String) : GState :=
  match lookup st.reg id with
  | some s =>
      if s.destroyTimer then
        ⟨(destroySession st.reg id false).1, st.openConns, st.boundId⟩
      else st
  | none => st

/-- Gateway-level events: an authenticated connection opening (with its
parsed intent parameters and the uuid that would be generated), a connection
closing, and a destroy-timer expiry. -/
inductive GEvent where
  | openEvt (conn : Nat) (requestedId : Option String) (freshId : String)
      (deviceName : Option String)
  | closeEvt (conn : Nat) (keepAliveMs : Nat)
  | fireEvt (id : String)
deriving Repr, DecidableEq

def gStep (cfg : GConfig) (st : GState) : GEvent → GState × List (Nat × Msg)
  | GEvent.openEvt conn rid freshId dn => gOpen cfg st conn rid freshId dn
  | GEvent.closeEvt conn ka => (gClose st conn ka, [])
  | GEvent.fireEvt id => (gDestroyFire st id, [])

def gRun (cfg : GConfig) (st : GState) : List GEvent → GState × List (Nat × Msg)
  | [] => (st, [])
  | e :: es =>
      let r1 := gStep cfg st e
      let r2 := gRun cfg r1.1 es
      (r2.1, r1.2 ++ r2.2)

/-- Deployment with no sandbox, a working shell, and identity resolution. -/
def cfg0 : GConfig :=
  { resolve := fun s => s
    sandboxRoot := none
    spawnOk := true
    shell := "cmd.exe"
    defaultCwd := "/home/u"
    cols := 80
    rows := 24 }

/-- Empty gateway state. -/
def g0 : GState := ⟨[], [], []⟩

/-- Takeover-then-old-close trace: connection 1 creates session S, connection
2 takes S over while 1 is still open, then connection 1 closes. -/
def c3Trace : List GEvent :=
  [GEvent.openEvt 1 none ("S") none,
    GEvent.openEvt 2 (some ("S")) "T" none,
    GEvent.closeEvt 1 1800000]

/-- C3: evaluating the code on the takeover-then-old-close trace.  The old
connection's close handler runs `detachWebSocket; scheduleDestroy` with its
captured session id without checking that it is still the attached socket, so
session S ends up with `ws = null`, a pending `destroyTimer`, and a disposed
forwarder, even though the takeover connection 2 is still open — against the
claim that the Session with the new live connection has no pending
destroyTimer. -/
theorem c3_takeover_close_arms_destroyTimer :
    ((lookup (gRun cfg0 g0 c3Trace).1.reg ("S")).map Session.destroyTimer
        = some true)
      ∧ ((lookup (gRun cfg0 g0 c3Trace).1.reg ("S")).map Session.ws = some none)
      ∧ ((lookup (gRun cfg0 g0 c3Trace).1.reg ("S")).map Session.dataHandler
          = some false)
      ∧ ((gRun cfg0 g0 c3Trace).1.openConns.contains 2 = true) := by
  decide

/-- Whether any frame in a send list is an `error` frame. -/
def containsErrorMsg (msgs : List (Nat × Msg)) : Bool :=
  msgs.any (fun p =>
    match p.2 with
    | Msg.errorMsg _ => true
    | _ => false)

/-- What C4 asserts for a connection presenting an unresolvable session id:
the handshake fails with an error and no session-affecting work happens. -/
def gOpenFailsAsClaimed (cfg : GConfig) (st : GState) (conn : Nat)
    (rid freshId : String) : Prop :=
  (gOpen cfg st conn (some rid) freshId none).1.reg = st.reg
    ∧ containsErrorMsg (gOpen cfg st conn (some rid) freshId none).2 = true

/-- C4 counterexample: a connection presenting the unknown (for instance
expired) session id ("expired") against an empty Registry does not fail — the
reattach-or-create branch silently creates a fresh session ("F") and
acknowledges it, sending no error. -/
theorem c4_counterexample : ¬ gOpenFailsAsClaimed cfg0 g0 1 ("expired") "F" := by
  unfold gOpenFailsAsClaimed
  decide

/-- C4 (amended): the terminal-manager operations presenting an id absent
from the Registry — attachWebSocket, terminal.input's writeToSession,
terminal.resize's resizeSession — fail with `Session not found`; a fresh
connection presenting an unresolvable session id, however, does not fail:
the gateway falls back to creating a new session under a fresh id and sends
no error. -/
theorem c4_missing_id (cfg : GConfig) (st : GState) (reg : Registry)
    (id freshId : String) (conn c : Nat) (data : String) (cols rows : Int)
    (dn : Option String)
    (h : lookup reg id = none) (hst : lookup st.reg id = none)
    (hroot : cfg.sandboxRoot = none) (hspawn : cfg.spawnOk = true) :
    attachWebSocket reg id c = Except.error ("Session not found: " ++ id)
      ∧ writeToSession reg id data = Except.error ("Session not found: " ++ id)
      ∧ resizeSession reg id cols rows = Except.error ("Session not found: " ++ id)
      ∧ (lookup (gOpen cfg st conn (some id) freshId dn).1.reg freshId).isSome = true
      ∧ containsErrorMsg (gOpen cfg st conn (some id) freshId dn).2 = false := by
  have hsess :
      createSession st.reg freshId cfg.defaultCwd cfg.shell cfg.sandboxRoot
          dn cfg.resolve cfg.spawnOk
        = (Except.ok (regSet st.reg freshId
            { ws := none
              destroyTimer := false
              idleTimer := false
              scrollback := []
              scrollbackHandler := true
              exitHandler := true
              dataHandler := false
              cwd := cfg.resolve cfg.defaultCwd
              deviceName := dn }),
          [CreateAction.spawned, CreateAction.registryInsert freshId]) := by
    rw [hroot, hspawn]
    simp [createSession, validatePath]
  refine ⟨by simp [attachWebSocket, h], by simp [writeToSession, h],
    by simp [resizeSession, h], ?_, ?_⟩
  · simp [gOpen, hst, gCreate, hsess, attachWebSocket, lookup_regSet_self]
  · simp [gOpen, hst, gCreate, hsess, attachWebSocket, lookup_regSet_self,
      containsErrorMsg]

theorem c4_witness :
    attachWebSocket [("a", sampleSess)] "gone" 3
        = Except.error ("Session not found: " ++ "gone")
      ∧ writeToSession [("a", sampleSess)] "gone" "ls"
          = Except.error ("Session not found: " ++ "gone")
      ∧ resizeSession [("a", sampleSess)] "gone" 100 30
          = Except.error ("Session not found: " ++ "gone")
      ∧ (lookup (gOpen cfg0 g0 1 (some ("gone")) "F" none).1.reg ("F")).isSome = true
      ∧ containsErrorMsg (gOpen cfg0 g0 1 (some ("gone")) "F" none).2 = false :=
  c4_missing_id cfg0 g0 [("a", sampleSess)] "gone" "F" 1 3 ("ls") 100 30 none
    (by decide) (by decide) (by decide) (by decide)

/-- JS `\s` whitespace class, restricted to ASCII (HTTP header values carry
no unicode space characters). -/
def isJsSpace (c : Char) : Bool :=
  c = ' ' ∨ c = '\t' ∨ c = '\n' ∨ c = '\r' ∨ c = '\x0b' ∨ c = '\x0c'

/-- Line terminators, which `.` never matches in a regex without the s flag. -/
def isLineTerm (c : Char) : Bool := c = '\n' ∨ c = '\r'

/-- Capture group of auth.js's `/^Bearer\s+(.+)$/i` applied to a header
value: the case-insensitive literal, at least one whitespace character, then
a nonempty remainder free of line terminators.  When the remainder after the
maximal whitespace run is empty, the greedy `\s+` backs off one character,
capturing a final whitespace character provided it is not a line
terminator. -/
def bearerExtract (h : String) : Option String :=
  let cs := h.toList
  if (cs.take 6).map Char.toLower = ("bearer".toList) then
    let rest := cs.drop 6
    let sp := rest.takeWhile isJsSpace
    let tok := rest.dropWhile isJsSpace
    if sp = [] then none
    else if tok ≠ [] then
      if tok.all (fun c => !(isLineTerm c)) then some (String.mk tok) else none
    else
      match rest.getLast? with
      | some c =>
          if 2 ≤ rest.length ∧ !(isLineTerm c) then some (String.mk [c]) else none
      | none => none
  else none

/-- Credential material of a WebSocket upgrade request: the Authorization
header and the `token` query parameter (`none` also when URL parsing threw,
matching the try/catch in the source). -/
structure UpgradeRequest where
  authHeader : Option String
  queryToken : Option String
deriving Repr, DecidableEq

/-- First check of auth.js `authenticate`: the Authorization header, matched
against the Bearer pattern; the length check plus `crypto.timingSafeEqual` on
the UTF-8 buffers amounts to string equality. -/
def headerAccepts (authHeader : Option String) (expectedToken : String) : Bool :=
  match authHeader with
  | some h =>
      match bearerExtract h with
      | some provided => provided == expectedToken
      | none => false
  | none => false

/-- Second check of auth.js `authenticate`: the `token` query parameter; an
absent or empty value is falsy and skipped. -/
def queryAccepts (queryToken : Option String) (expectedToken : String) : Bool :=
  match queryToken with
  | some q => if q ≠ "" then q == expectedToken else false
  | none => false

/-- auth.js `authenticate(req, expectedToken)`: Bearer header first, then the
`token` query parameter. -/
def authenticate (req : UpgradeRequest) (expectedToken : String) : Bool :=
  headerAccepts req.authHeader expectedToken
    || queryAccepts req.queryToken expectedToken

theorem headerAccepts_iff (authHeader : Option String) (token : String) :
    headerAccepts authHeader token = true ↔ authHeader.bind bearerExtract = some token := by
  cases authHeader with
  | none => simp [headerAccepts]
  | some hdr =>
      cases hb : bearerExtract hdr with
      | none => simp [headerAccepts, hb]
      | some p => simp [headerAccepts, hb]

theorem queryAccepts_iff (queryToken : Option String) (token : String) :
    queryAccepts queryToken token = true
      ↔ (queryToken = some token ∧ token ≠ "") := by
  cases queryToken with
  | none => simp [queryAccepts]
  | some q =>
      by_cases hq : q = ""
      · subst hq
        simp only [queryAccepts, ne_eq, not_true_eq_false, if_false,
          Bool.false_eq_true, false_iff, Option.some.injEq, not_and]
        intro hqe
        exact fun ht => ht hqe.symm
      · simp only [queryAccepts, ne_eq, hq, not_false_eq_true, if_true,
          beq_iff_eq, Option.some.injEq]
        constructor
        · intro hqe
          exact ⟨hqe, hqe ▸ hq⟩
        · rintro ⟨hqe, ht⟩
          exact hqe

/-- The daemon's `upgradeHandler`: authenticate, and only on success hand the
socket to the connection handler; on failure the socket is destroyed before
any session-affecting work. -/
def upgradeHandler (cfg : GConfig) (token : String) (st : GState)
    (req : UpgradeRequest) (conn : Nat) (requestedId : Option String)
    (freshId : String) (deviceName : Option String) :
    GState × List (Nat × Msg) × Bool :=
  if authenticate req token then
    let r := gOpen cfg st conn requestedId freshId deviceName
    (r.1, r.2, true)
  else (st, [], false)

/-- C9: an upgrade is accepted exactly when the credential extracted from the
Authorization Bearer header, or the nonempty `token` query parameter, equals
the configured token byte for byte (either route sufficient); on credential
failure the connection is rejected with the gateway state — Registry,
connections, handlers — untouched and no message sent. -/
theorem c9_auth_gate (cfg : GConfig) (token : String) (st : GState)
    (req : UpgradeRequest) (conn : Nat) (rid : Option String)
    (freshId : String) (dn : Option String) :
    (authenticate req token = true
        ↔ (req.authHeader.bind bearerExtract = some token
            ∨ (req.queryToken = some token ∧ token ≠ "")))
      ∧ (authenticate req token = false
          → upgradeHandler cfg token st req conn rid freshId dn
              = (st, [], false)) := by
  constructor
  · rw [show authenticate req token
        = (headerAccepts req.authHeader token || queryAccepts req.queryToken token)
        from rfl]
    rw [Bool.or_eq_true, headerAccepts_iff, queryAccepts_iff]
  · intro hfalse
    simp [upgradeHandler, hfalse]

theorem c9_witness :
    upgradeHandler cfg0 ("secret") g0 ⟨some ("Bearer wrong"), none⟩ 1 none ("S") none
      = (g0, [], false) :=
  (c9_auth_gate cfg0 ("secret") g0 ⟨some ("Bearer wrong"), none⟩ 1 none ("S") none).2
    (by decide)

/-- JSON values as produced by `JSON.parse`, plus `undefined` for reads of
absent properties.  Numbers are rationals: the validator only distinguishes
integrality and ordering, never float rounding. -/
inductive JVal where
  | null
  | undef
  | bool (b : Bool)
  | num (q : Rat)
  | str (s : String)
  | obj (fields : List (String × JVal))
  | arr (elems : List JVal)

/-- JS truthiness of a parsed value (NaN does not arise from JSON.parse). -/
def truthy : JVal → Bool
  | JVal.null => false
  | JVal.undef => false
  | JVal.bool b => b
  | JVal.num q => decide (q ≠ 0)
  | JVal.str s => decide (s ≠ "")
  | JVal.obj _ => true
  | JVal.arr _ => true

/-- JS `typeof v === 'object'` — true also for null and arrays. -/
def typeofIsObject : JVal → Bool
  | JVal.null => true
  | JVal.obj _ => true
  | JVal.arr _ => true
  | _ => false

/-- Property read `v.k`: object lookup, `undefined` otherwise (no value the
validator reads properties from has the fields in question unless it is an
object). -/
def getField : JVal → String → JVal
  | JVal.obj fields, k =>
      match fields.find? (fun p => p.1 == k) with
      | some p => p.2
      | none => JVal.undef
  | _, _ => JVal.undef

/-- Template-literal rendering, as in the `Unknown message type: ${t}` error
text (approximate for composite values — only the error text depends on
it). -/
def jsDisplay : JVal → String
  | JVal.null => "null"
  | JVal.undef => "undefined"
  | JVal.bool b => if b then ("true") else ("false")
  | JVal.num q => toString q
  | JVal.str s => s
  | JVal.obj _ => "[object Object]"
  | JVal.arr _ => ""

/-- `Number.isInteger(v)`. -/
def isIntegerJ : JVal → Bool
  | JVal.num q => q.den == 1
  | _ => false

/-- Numeric `v < 1`, evaluated only after `Number.isInteger(v)` held
(short-circuit in the source). -/
def ltOneJ : JVal → Bool
  | JVal.num q => decide (q < 1)
  | _ => false

/-- protocol.js `validate(msg)`: `none` for a valid message, the error text
otherwise, with the source's checks in source order. -/
def validate (msg : JVal) : Option String :=
  if !(truthy msg) || !(typeofIsObject msg) then
    some ("Message must be a JSON object")
  else if !(truthy (getField msg ("type"))) then
    some ("Missing \"type\" field")
  else
    match getField msg ("type") with
    | JVal.str s =>
        if s = "terminal.input" then
          match getField msg ("data") with
          | JVal.str _ =>
              if !(truthy (getField msg ("sessionId"))) then
                some ("terminal.input requires \"sessionId\"")
              else none
          | _ => some ("terminal.input requires string \"data\"")
        else if s = "terminal.resize" then
          if !(isIntegerJ (getField msg ("cols"))) || ltOneJ (getField msg ("cols")) then
            some ("terminal.resize requires positive integer \"cols\"")
          else if !(isIntegerJ (getField msg ("rows"))) || ltOneJ (getField msg ("rows")) then
            some ("terminal.resize requires positive integer \"rows\"")
          else if !(truthy (getField msg ("sessionId"))) then
            some ("terminal.resize requires \"sessionId\"")
          else none
        else some ("Unknown message type: " ++ s)
    | other => some ("Unknown message type: " ++ jsDisplay other)

/-- The string payload of a validated `data` field. -/
def dataString : JVal → String
  | JVal.str s => s
  | _ => ""

/-- The integer value of a validated geometry field. -/
def toIntJ : JVal → Int
  | JVal.num q => q.num
  | _ => 0

/-- The `tm.writeToSession(msg.sessionId, msg.data)` call as reached from the
message handler: a non-string `sessionId` never matches the string-keyed Map
and throws the same `Session not found` error. -/
def writeToSessionJ (reg : Registry) (sid dat : JVal) :
    Except String (List PtyAction) :=
  match sid with
  | JVal.str k => writeToSession reg k (dataString dat)
  | other => Except.error ("Session not found: " ++ jsDisplay other)

/-- The `tm.resizeSession(msg.sessionId, msg.cols, msg.rows)` call as reached
from the message handler. -/
def resizeSessionJ (reg : Registry) (sid colsV rowsV : JVal) :
    Except String (List PtyAction) :=
  match sid with
  | JVal.str k => resizeSession reg k (toIntJ colsV) (toIntJ rowsV)
  | other => Except.error ("Session not found: " ++ jsDisplay other)

/-- The `ws.on('message')` handler of the daemon entry point: parse (`none`
models a JSON.parse throw), validate, then dispatch, with manager throws
caught and reported as `error` frames.  Returns the registry, the frames sent
back on this socket, and the PTY operations applied; the handler is a total
function — no exception escapes it. -/
def handleMessage (reg : Registry) (raw : Option JVal) :
    Registry × List Msg × List PtyAction :=
  match raw with
  | none => (reg, [makeError ("Invalid JSON")], [])
  | some msg =>
      match validate msg with
      | some err => (reg, [makeError err], [])
      | none =>
          match getField msg ("type") with
          | JVal.str s =>
              if s = "terminal.input" then
                match writeToSessionJ reg (getField msg ("sessionId")) (getField msg ("data")) with
                | Except.ok acts => (reg, [], acts)
                | Except.error e => (reg, [makeError e], [])
              else if s = "terminal.resize" then
                match resizeSessionJ reg (getField msg ("sessionId"))
                    (getField msg ("cols")) (getField msg ("rows")) with
                | Except.ok acts => (reg, [], acts)
                | Except.error e => (reg, [makeError e], [])
              else (reg, [makeError ("Unhandled message type: " ++ s)], [])
          | other => (reg, [makeError ("Unhandled message type: " ++ jsDisplay other)], [])

/-- Frames that fail parsing or validation. -/
def invalidFrame (raw : Option JVal) : Prop :=
  match raw with
  | none => True
  | some m => (validate m).isSome = true

/-- C6: every client frame that is not valid JSON, is missing a required
field, carries a wrong-typed field (such as non-integer or non-positive
cols/rows), or has an unrecognized type draws exactly one `error` reply,
applies no PTY operation, leaves the Registry — hence every Session's state —
unchanged, and never escapes the handler as an exception (the handler is a
total function). -/
theorem c6_invalid_frame_one_error (reg : Registry) (raw : Option JVal)
    (h : invalidFrame raw) :
    (handleMessage reg raw).1 = reg
      ∧ (handleMessage reg raw).2.2 = []
      ∧ ∃ e, (handleMessage reg raw).2.1 = [makeError e] := by
  match raw with
  | none => exact ⟨rfl, rfl, ⟨"Invalid JSON", rfl⟩⟩
  | some m =>
      have h2 : (validate m).isSome = true := h
      cases hv : validate m with
      | none => rw [hv] at h2; simp at h2
      | some e => exact ⟨by simp [handleMessage, hv], by simp [handleMessage, hv],
          ⟨e, by simp [handleMessage, hv]⟩⟩

theorem c6_witness :
    (handleMessage [("a", sampleSess)] (some (JVal.obj []))).1 = [("a", sampleSess)]
      ∧ (handleMessage [("a", sampleSess)] (some (JVal.obj []))).2.2 = []
      ∧ ∃ e, (handleMessage [("a", sampleSess)] (some (JVal.obj []))).2.1 = [makeError e] :=
  c6_invalid_frame_one_error [("a", sampleSess)] (some (JVal.obj []))
    (by unfold invalidFrame; decide)

/-- Timed model of the idle logic inside the permanent scrollbackHandler of
terminal-manager.js: given the pending timeout deadline (if any), the arrival
times of the remaining output chunks (milliseconds, in order), and the
observation horizon, each chunk clears the pending timeout and arms a new one
`IDLE_TIMEOUT_MS` ahead (`clearTimeout` + `setTimeout`); a timeout coming due
before the next chunk (or the horizon) fires: it disarms itself and sends
`session.idle` when a socket is attached and open.  Returns the times at
which `session.idle` frames are sent. -/
def runIdle (wsOpen : Bool) : Option Nat → List Nat → Nat → List Nat
  | deadline, [], horizon =>
      match deadline with
      | some d => if d ≤ horizon then (if wsOpen then [d] else []) else []
      | none => []
  | deadline, t :: rest, horizon =>
      match deadline with
      | some d =>
          if d ≤ t then
            (if wsOpen then [d] else [])
              ++ runIdle wsOpen (some (t + IDLE_TIMEOUT_MS)) rest horizon
          else runIdle wsOpen (some (t + IDLE_TIMEOUT_MS)) rest horizon
      | none => runIdle wsOpen (some (t + IDLE_TIMEOUT_MS)) rest horizon

/-- Emission times the claim calls for: exactly one `session.idle`, three
seconds after a chunk, for each chunk followed by at least
`IDLE_TIMEOUT_MS` of silence (silence up to the horizon for the last
chunk), and none for a chunk whose successor arrives earlier. -/
def idleTimesSpec : List Nat → Nat → List Nat
  | [], _ => []
  | [t], horizon =>
      if t + IDLE_TIMEOUT_MS ≤ horizon then [t + IDLE_TIMEOUT_MS] else []
  | t :: t2 :: rest, horizon =>
      (if t + IDLE_TIMEOUT_MS ≤ t2 then [t + IDLE_TIMEOUT_MS] else [])
        ++ idleTimesSpec (t2 :: rest) horizon

theorem idleTimesSpec_cons (t : Nat) (rest : List Nat) (horizon : Nat) :
    idleTimesSpec (t :: rest) horizon
      = (match rest with
          | [] => if t + IDLE_TIMEOUT_MS ≤ horizon then [t + IDLE_TIMEOUT_MS] else []
          | t2 :: _ => if t + IDLE_TIMEOUT_MS ≤ t2 then [t + IDLE_TIMEOUT_MS] else [])
        ++ idleTimesSpec rest horizon := by
  cases rest with
  | nil => simp [idleTimesSpec]
  | cons t2 rest2 => simp [idleTimesSpec]

theorem runIdle_armed (rest : List Nat) (t horizon : Nat) :
    runIdle true (some (t + IDLE_TIMEOUT_MS)) rest horizon
      = (match rest with
          | [] => if t + IDLE_TIMEOUT_MS ≤ horizon then [t + IDLE_TIMEOUT_MS] else []
          | t2 :: _ => if t + IDLE_TIMEOUT_MS ≤ t2 then [t + IDLE_TIMEOUT_MS] else [])
        ++ idleTimesSpec rest horizon := by
  induction rest generalizing t with
  | nil => simp [runIdle, idleTimesSpec]
  | cons t2 rest2 ih =>
      rw [idleTimesSpec_cons]
      by_cases hle : t + IDLE_TIMEOUT_MS ≤ t2
      · simp only [runIdle, hle, if_true, ih t2, List.append_assoc]
      · simp only [runIdle, hle, if_false, ih t2, List.nil_append]

/-- C7: with a connection attached and open throughout, the `session.idle`
frames are sent exactly once per qualifying silent interval: three seconds
after each output chunk that is followed by at least three seconds without
output (up to the horizon for the last chunk), and never earlier — each
fresh chunk cancels and re-arms the timer; with no open connection no frame
is ever sent while the timer bookkeeping is identical. -/
theorem c7_idle_timer (chunkTimes : List Nat) (horizon : Nat) :
    runIdle true none chunkTimes horizon = idleTimesSpec chunkTimes horizon
      ∧ ∀ deadline, runIdle false deadline chunkTimes horizon = [] := by
  constructor
  · cases chunkTimes with
    | nil => simp [runIdle, idleTimesSpec]
    | cons t rest =>
        rw [idleTimesSpec_cons]
        simpa [runIdle] using runIdle_armed rest t horizon
  · intro deadline
    induction chunkTimes generalizing deadline with
    | nil =>
        cases deadline with
        | none => simp [runIdle]
        | some d => simp [runIdle]
    | cons t rest ih =>
        cases deadline with
        | none => simpa [runIdle] using ih (some (t + IDLE_TIMEOUT_MS))
        | some d =>
            by_cases hle : d ≤ t
            · simp [runIdle, hle, ih (some (t + IDLE_TIMEOUT_MS))]
            · simp [runIdle, hle, ih (some (t + IDLE_TIMEOUT_MS))]

end CCRemote
